import Mathlib

/-!
Shallow embedding of `src/vertex_color_master/vcm_compat.py`, the Blender
version compatibility layer of the Vertex Color Master addon, together with
proofs about it.

Modelling conventions:
* A Blender version `bpy.app.version` is a triple of naturals; Python's tuple
  comparison `>=` is lexicographic and is embedded as `verGE`.
* The module-scope globals (`BLENDER_VERSION`, `BLENDER_3_2`, `BLENDER_4_0`,
  `BLENDER_4_1`, `BLENDER_5_0`, `USE_COLOR_ATTRIBUTES`) are gathered in a
  `ModuleFlags` record; `moduleInit` performs the module's top-level
  assignments.  Every module function reads these globals, so each embedded
  function takes a `ModuleFlags` argument.
* Host objects are modelled structurally: a color layer / color attribute
  (`VCol`) has a name, an optional attribute type and domain (present only on
  layers created through the `color_attributes` API), and its per-loop color
  data; a layer collection (`Collection`) has a list of layers and an optional
  active layer (`.active_color` of `color_attributes`, `.active` of
  `vertex_colors`); a mesh holds the two optional collections (the module's
  own type annotations treat them as `Optional`) and the `use_auto_smooth`
  flag.
* Colors carry no arithmetic in this module, so a color is an opaque list of
  integers.
* A Python function that can raise (attribute access on `None`, indexing out
  of range) is embedded with result type `Except String _`, the error string
  naming the Python exception class; a function that signals "not present" by
  returning `None` is embedded with `Option`.
-/

namespace VcmCompat

/-- A host version triple, `bpy.app.version`. -/
abbrev Ver := Nat × Nat × Nat

/-- Python tuple comparison `a >= b` on 3-tuples: lexicographic. -/
def verGE (a b : Ver) : Bool :=
  b.1 < a.1 || (a.1 == b.1 && (b.2.1 < a.2.1 || (a.2.1 == b.2.1 && b.2.2 ≤ a.2.2)))

/-- The module-scope globals of `vcm_compat.py` (lines 36-43). -/
structure ModuleFlags where
  BLENDER_VERSION : Ver
  BLENDER_3_2 : Bool
  BLENDER_4_0 : Bool
  BLENDER_4_1 : Bool
  BLENDER_5_0 : Bool
  USE_COLOR_ATTRIBUTES : Bool
deriving Repr, DecidableEq

/-- The module's top-level assignments, executed once at import time:
`BLENDER_VERSION = bpy.app.version`, `BLENDER_3_2 = BLENDER_VERSION >= (3, 2, 0)`,
..., `USE_COLOR_ATTRIBUTES = BLENDER_3_2`. -/
def moduleInit (v : Ver) : ModuleFlags :=
  { BLENDER_VERSION := v
    BLENDER_3_2 := verGE v (3, 2, 0)
    BLENDER_4_0 := verGE v (4, 0, 0)
    BLENDER_4_1 := verGE v (4, 1, 0)
    BLENDER_5_0 := verGE v (5, 0, 0)
    USE_COLOR_ATTRIBUTES := verGE v (3, 2, 0) }

/-- A per-loop color value; this module never computes with the channels, so
they stay opaque integers. -/
abbrev Color := List Int

/-- A vertex color layer / color attribute.  `attrType` and `domain` are the
`type` and `domain` of a color attribute (`'BYTE_COLOR'` / `'CORNER'` etc.);
layers of the legacy `vertex_colors` API carry neither. -/
structure VCol where
  name : String
  attrType : Option String
  domain : Option String
  data : List Color
deriving Repr, DecidableEq

/-- A host layer collection (`mesh.color_attributes` or `mesh.vertex_colors`):
its layers and its active layer (`.active_color` resp. `.active`). -/
structure Collection where
  layers : List VCol
  active : Option VCol
deriving Repr, DecidableEq

/-- Python `name in collection`: membership is by layer name. -/
def Collection.hasName (c : Collection) (n : String) : Bool :=
  c.layers.any (fun l => l.name == n)

/-- Python `collection[name]`: the layer stored under `name`. -/
def Collection.byName (c : Collection) (n : String) : Option VCol :=
  c.layers.find? (fun l => l.name == n)

/-- The host mesh state this module touches.  The module's annotations treat
the two collections as `Optional`, so both are embedded as `Option`. -/
structure Mesh where
  color_attributes : Option Collection
  vertex_colors : Option Collection
  use_auto_smooth : Bool
deriving Repr, DecidableEq

/-- Python truthiness of the `name: Optional[str]` argument of `create_vcol`:
`None` and the empty string are falsy. -/
def nameTruthy : Option String → Bool
  | none => false
  | some s => s ≠ ""

/-- `get_shader_builtin(name)` (lines 50-66): requests the bare name from
`gpu.shader.from_builtin` on Blender 4.0+, the `'2D_'`-prefixed name below.
The host's `from_builtin` is an abstract parameter. -/
def get_shader_builtin {α : Type} (fl : ModuleFlags) (from_builtin : String → α)
    (name : String) : α :=
  if fl.BLENDER_4_0 then from_builtin name
  else from_builtin ("2D_" ++ name)

/-- `get_vertex_colors(mesh)` (lines 73-86). -/
def get_vertex_colors (fl : ModuleFlags) (m : Mesh) : Option Collection :=
  if fl.USE_COLOR_ATTRIBUTES then m.color_attributes else m.vertex_colors

/-- `get_active_vcol(mesh)` (lines 89-108).  The Python guard
`if attrs and len(attrs) > 0` is "collection present and nonempty" (truthiness
of a host collection is `len > 0`). -/
def get_active_vcol (fl : ModuleFlags) (m : Mesh) : Option VCol :=
  if fl.USE_COLOR_ATTRIBUTES then
    match m.color_attributes with
    | some attrs => if 0 < attrs.layers.length then attrs.active else none
    | none => none
  else
    match m.vertex_colors with
    | some vcols => if 0 < vcols.layers.length then vcols.active else none
    | none => none

/-- `set_active_vcol(mesh, vcol)` (lines 111-122): assigns
`mesh.color_attributes.active_color` resp. `mesh.vertex_colors.active`.
Attribute access on an absent collection raises. -/
def set_active_vcol (fl : ModuleFlags) (m : Mesh) (vcol : VCol) :
    Except String Mesh :=
  if fl.USE_COLOR_ATTRIBUTES then
    match m.color_attributes with
    | some c =>
        .ok { m with color_attributes := some { c with active := some vcol } }
    | none => .error "AttributeError"
  else
    match m.vertex_colors with
    | some c =>
        .ok { m with vertex_colors := some { c with active := some vcol } }
    | none => .error "AttributeError"

/-- `legacyDefault` stands for the name the legacy host assigns in
`mesh.vertex_colors.new()` when no name is passed; it is a parameter of the
host, not of this module. -/
def create_vcol (fl : ModuleFlags) (legacyDefault : String) (m : Mesh)
    (name : Option String) : Except String (VCol × Mesh) :=
  if fl.USE_COLOR_ATTRIBUTES then
    match m.color_attributes with
    | some c =>
        let l : VCol :=
          { name := if nameTruthy name then name.getD "" else "Color"
            attrType := some "BYTE_COLOR"
            domain := some "CORNER"
            data := [] }
        .ok (l, { m with color_attributes := some { c with layers := c.layers ++ [l] } })
    | none => .error "AttributeError"
  else
    match m.vertex_colors with
    | some c =>
        let l : VCol :=
          { name := if nameTruthy name then name.getD "" else legacyDefault
            attrType := none
            domain := none
            data := [] }
        .ok (l, { m with vertex_colors := some { c with layers := c.layers ++ [l] } })
    | none => .error "AttributeError"

/-- `remove_vcol(mesh, vcol)` (lines 152-163). -/
def remove_vcol (fl : ModuleFlags) (m : Mesh) (vcol : VCol) :
    Except String Mesh :=
  if fl.USE_COLOR_ATTRIBUTES then
    match m.color_attributes with
    | some c =>
        .ok { m with color_attributes := some { c with layers := c.layers.erase vcol } }
    | none => .error "AttributeError"
  else
    match m.vertex_colors with
    | some c =>
        .ok { m with vertex_colors := some { c with layers := c.layers.erase vcol } }
    | none => .error "AttributeError"

/-- `vcol_exists(mesh, name)` (lines 166-180). -/
def vcol_exists (fl : ModuleFlags) (m : Mesh) (name : String) : Bool :=
  match get_vertex_colors fl m with
  | none => false
  | some vcols => vcols.hasName name

/-- `get_vcol_by_name(mesh, name)` (lines 183-199). -/
def get_vcol_by_name (fl : ModuleFlags) (m : Mesh) (name : String) :
    Option VCol :=
  match get_vertex_colors fl m with
  | none => none
  | some vcols => if vcols.hasName name then vcols.byName name else none

/-- `get_vcol_count(mesh)` (lines 202-215). -/
def get_vcol_count (fl : ModuleFlags) (m : Mesh) : Nat :=
  match get_vertex_colors fl m with
  | none => 0
  | some vcols => vcols.layers.length

/-- `has_vertex_colors(mesh)` (lines 218-228). -/
def has_vertex_colors (fl : ModuleFlags) (m : Mesh) : Bool :=
  decide (0 < get_vcol_count fl m)

/-- `get_or_create_vcol(mesh)` (lines 231-247).  A raised exception in
`create_vcol` or `set_active_vcol` propagates. -/
def get_or_create_vcol (fl : ModuleFlags) (legacyDefault : String) (m : Mesh) :
    Except String (VCol × Mesh) :=
  match get_active_vcol fl m with
  | some vcol => .ok (vcol, m)
  | none =>
      match create_vcol fl legacyDefault m none with
      | .error e => .error e
      | .ok (vcol, m1) =>
          match set_active_vcol fl m1 vcol with
          | .error e => .error e
          | .ok m2 => .ok (vcol, m2)

/-- `iter_vertex_colors(mesh)` (lines 250-263), as the list of layers the
generator yields. -/
def iter_vertex_colors (fl : ModuleFlags) (m : Mesh) : List VCol :=
  match get_vertex_colors fl m with
  | none => []
  | some vcols => vcols.layers

/-- `set_auto_smooth(mesh, enabled)` (lines 270-279). -/
def set_auto_smooth (fl : ModuleFlags) (m : Mesh) (enabled : Bool) : Mesh :=
  if !fl.BLENDER_4_1 then { m with use_auto_smooth := enabled } else m

/-- `has_auto_smooth(mesh)` (lines 282-294). -/
def has_auto_smooth (fl : ModuleFlags) (m : Mesh) : Bool :=
  if fl.BLENDER_4_1 then true else m.use_auto_smooth

/-- A BMesh loop color layer: only its name matters to this module. -/
structure BMLayer where
  name : String
deriving Repr, DecidableEq

/-- One of `bm.loops.layers.float_color` / `bm.loops.layers.color`. -/
structure BMLayerColl where
  layers : List BMLayer
  active : Option BMLayer
deriving Repr, DecidableEq

/-- Membership by name in a BMesh layer collection. -/
def BMLayerColl.hasName (c : BMLayerColl) (n : String) : Bool :=
  c.layers.any (fun l => l.name == n)

/-- Lookup by name in a BMesh layer collection. -/
def BMLayerColl.byName (c : BMLayerColl) (n : String) : Option BMLayer :=
  c.layers.find? (fun l => l.name == n)

/-- The part of a BMesh this module touches: `bm.loops.layers.float_color`
and `bm.loops.layers.color`. -/
structure BMesh where
  float_color : BMLayerColl
  color : BMLayerColl
deriving Repr, DecidableEq

/-- `get_bmesh_color_layer(bm, vcol_name)` (lines 301-341). -/
def get_bmesh_color_layer (fl : ModuleFlags) (bm : BMesh)
    (vcol_name : Option String) : Option BMLayer :=
  if fl.USE_COLOR_ATTRIBUTES then
    if nameTruthy vcol_name then
      let n := vcol_name.getD ""
      if bm.float_color.hasName n then bm.float_color.byName n
      else if bm.color.hasName n then bm.color.byName n
      else none
    else
      match bm.float_color.active with
      | some layer => some layer
      | none => bm.color.active
  else
    if nameTruthy vcol_name && bm.color.hasName (vcol_name.getD "") then
      bm.color.byName (vcol_name.getD "")
    else bm.color.active

/-- `get_vcol_data(vcol)` (lines 348-360). -/
def get_vcol_data (vcol : VCol) : List Color :=
  vcol.data

/-- `get_loop_color(vcol, loop_index)` (lines 363-374):
`list(vcol.data[loop_index].color)`; indexing out of range raises. -/
def get_loop_color (vcol : VCol) (loop_index : Nat) : Except String Color :=
  match vcol.data.get? loop_index with
  | some c => .ok c
  | none => .error "IndexError"

/-- `set_loop_color(vcol, loop_index, color)` (lines 377-386):
`vcol.data[loop_index].color = color`; indexing out of range raises. -/
def set_loop_color (vcol : VCol) (loop_index : Nat) (color : Color) :
    Except String VCol :=
  if loop_index < vcol.data.length then
    .ok { vcol with data := vcol.data.set loop_index color }
  else .error "IndexError"

/-- Whether an embedded call completed normally (raised no exception). -/
def exOk {α : Type} : Except String α → Bool
  | .ok _ => true
  | .error _ => false

/-!
Logical views, for comparing the two API shapes.  The logical content of a
layer is its name and its color data; the attribute `type`/`domain` fields
exist only on the new API and are not part of the logical result.
-/

/-- The logical content of a layer: its name and its color data. -/
def VCol.view (l : VCol) : String × List Color :=
  (l.name, l.data)

/-- The logical content of a collection: its layers' views and the active
layer's view. -/
def Collection.view (c : Collection) :
    List (String × List Color) × Option (String × List Color) :=
  (c.layers.map VCol.view, c.active.map VCol.view)

/-- The logical color-layer state of a mesh as seen through the new
`color_attributes` API. -/
def newView (m : Mesh) : Option (List (String × List Color) × Option (String × List Color)) :=
  m.color_attributes.map Collection.view

/-- The logical color-layer state of a mesh as seen through the legacy
`vertex_colors` API. -/
def legacyView (m : Mesh) : Option (List (String × List Color) × Option (String × List Color)) :=
  m.vertex_colors.map Collection.view

/-!
Trace semantics for the module-global state.  One `Op` is one call of a
module operation; `runOp` threads the module-scope globals explicitly.  No
function body of `vcm_compat.py` contains a `global` statement or any other
assignment to the module-scope names, so every operation returns the flag
record it was given.
-/

/-- One call of a public operation of the module, with its arguments. -/
inductive Op where
  | shader (name : String)
  | vertexColors
  | activeVcol
  | setActive (vcol : VCol)
  | create (name : Option String)
  | removeLayer (vcol : VCol)
  | layerExists (name : String)
  | layerByName (name : String)
  | layerCount
  | hasLayers
  | getOrCreate
  | iterLayers
  | setSmooth (enabled : Bool)
  | hasSmooth
  | bmeshLayer (bm : BMesh) (name : Option String)
  | loopColorGet (vcol : VCol) (i : Nat)
  | loopColorSet (vcol : VCol) (i : Nat) (c : Color)
deriving Repr, DecidableEq

/-- Execute one operation against the module globals `fl` and the host mesh
`m`; result is the module-global state and mesh afterwards.  A raised
exception leaves the mesh as the partial mutation left it (every mutating
operation here raises, if at all, before any write). -/
def runOp (fl : ModuleFlags) (legacyDefault : String) (m : Mesh) :
    Op → ModuleFlags × Mesh
  | .shader _ => (fl, m)
  | .vertexColors => (fl, m)
  | .activeVcol => (fl, m)
  | .setActive vcol =>
      match set_active_vcol fl m vcol with
      | .ok m1 => (fl, m1)
      | .error _ => (fl, m)
  | .create name =>
      match create_vcol fl legacyDefault m name with
      | .ok (_, m1) => (fl, m1)
      | .error _ => (fl, m)
  | .removeLayer vcol =>
      match remove_vcol fl m vcol with
      | .ok m1 => (fl, m1)
      | .error _ => (fl, m)
  | .layerExists _ => (fl, m)
  | .layerByName _ => (fl, m)
  | .layerCount => (fl, m)
  | .hasLayers => (fl, m)
  | .getOrCreate =>
      match get_or_create_vcol fl legacyDefault m with
      | .ok (_, m1) => (fl, m1)
      | .error _ => (fl, m)
  | .iterLayers => (fl, m)
  | .setSmooth enabled => (fl, set_auto_smooth fl m enabled)
  | .hasSmooth => (fl, m)
  | .bmeshLayer _ _ => (fl, m)
  | .loopColorGet _ _ => (fl, m)
  | .loopColorSet _ _ _ => (fl, m)

/-- Execute a sequence of operations, threading the module globals and the
mesh. -/
def runTrace (fl : ModuleFlags) (legacyDefault : String) (m : Mesh) :
    List Op → ModuleFlags × Mesh
  | [] => (fl, m)
  | op :: ops =>
      runTrace (runOp fl legacyDefault m op).1 legacyDefault
        (runOp fl legacyDefault m op).2 ops

/-!
Version-independent branch functions.  Each module function factors as a
dispatch on one precomputed flag between the two functions below, neither of
which reads the version.
-/

/-- New-API branch of `get_shader_builtin` (Blender 4.0+). -/
def get_shader_builtinNew {α : Type} (from_builtin : String → α) (name : String) : α :=
  from_builtin name

/-- Legacy branch of `get_shader_builtin`. -/
def get_shader_builtinLegacy {α : Type} (from_builtin : String → α) (name : String) : α :=
  from_builtin ("2D_" ++ name)

/-- New-API branch of `get_vertex_colors`. -/
def get_vertex_colorsNew (m : Mesh) : Option Collection :=
  m.color_attributes

/-- Legacy branch of `get_vertex_colors`. -/
def get_vertex_colorsLegacy (m : Mesh) : Option Collection :=
  m.vertex_colors

/-- New-API branch of `get_active_vcol`. -/
def get_active_vcolNew (m : Mesh) : Option VCol :=
  match m.color_attributes with
  | some attrs => if 0 < attrs.layers.length then attrs.active else none
  | none => none

/-- Legacy branch of `get_active_vcol`. -/
def get_active_vcolLegacy (m : Mesh) : Option VCol :=
  match m.vertex_colors with
  | some vcols => if 0 < vcols.layers.length then vcols.active else none
  | none => none

/-- New-API branch of `set_active_vcol`. -/
def set_active_vcolNew (m : Mesh) (vcol : VCol) : Except String Mesh :=
  match m.color_attributes with
  | some c => .ok { m with color_attributes := some { c with active := some vcol } }
  | none => .error "AttributeError"

/-- Legacy branch of `set_active_vcol`. -/
def set_active_vcolLegacy (m : Mesh) (vcol : VCol) : Except String Mesh :=
  match m.vertex_colors with
  | some c => .ok { m with vertex_colors := some { c with active := some vcol } }
  | none => .error "AttributeError"

/-- New-API branch of `create_vcol`. -/
def create_vcolNew (m : Mesh) (name : Option String) : Except String (VCol × Mesh) :=
  match m.color_attributes with
  | some c =>
      let l : VCol :=
        { name := if nameTruthy name then name.getD "" else "Color"
          attrType := some "BYTE_COLOR"
          domain := some "CORNER"
          data := [] }
      .ok (l, { m with color_attributes := some { c with layers := c.layers ++ [l] } })
  | none => .error "AttributeError"

/-- Legacy branch of `create_vcol`. -/
def create_vcolLegacy (legacyDefault : String) (m : Mesh) (name : Option String) :
    Except String (VCol × Mesh) :=
  match m.vertex_colors with
  | some c =>
      let l : VCol :=
        { name := if nameTruthy name then name.getD "" else legacyDefault
          attrType := none
          domain := none
          data := [] }
      .ok (l, { m with vertex_colors := some { c with layers := c.layers ++ [l] } })
  | none => .error "AttributeError"

/-- New-API branch of `remove_vcol`. -/
def remove_vcolNew (m : Mesh) (vcol : VCol) : Except String Mesh :=
  match m.color_attributes with
  | some c => .ok { m with color_attributes := some { c with layers := c.layers.erase vcol } }
  | none => .error "AttributeError"

/-- Legacy branch of `remove_vcol`. -/
def remove_vcolLegacy (m : Mesh) (vcol : VCol) : Except String Mesh :=
  match m.vertex_colors with
  | some c => .ok { m with vertex_colors := some { c with layers := c.layers.erase vcol } }
  | none => .error "AttributeError"

/-- New-API branch of `vcol_exists`. -/
def vcol_existsNew (m : Mesh) (name : String) : Bool :=
  match m.color_attributes with
  | none => false
  | some vcols => vcols.hasName name

/-- Legacy branch of `vcol_exists`. -/
def vcol_existsLegacy (m : Mesh) (name : String) : Bool :=
  match m.vertex_colors with
  | none => false
  | some vcols => vcols.hasName name

/-- New-API branch of `get_vcol_by_name`. -/
def get_vcol_by_nameNew (m : Mesh) (name : String) : Option VCol :=
  match m.color_attributes with
  | none => none
  | some vcols => if vcols.hasName name then vcols.byName name else none

/-- Legacy branch of `get_vcol_by_name`. -/
def get_vcol_by_nameLegacy (m : Mesh) (name : String) : Option VCol :=
  match m.vertex_colors with
  | none => none
  | some vcols => if vcols.hasName name then vcols.byName name else none

/-- New-API branch of `get_vcol_count`. -/
def get_vcol_countNew (m : Mesh) : Nat :=
  match m.color_attributes with
  | none => 0
  | some vcols => vcols.layers.length

/-- Legacy branch of `get_vcol_count`. -/
def get_vcol_countLegacy (m : Mesh) : Nat :=
  match m.vertex_colors with
  | none => 0
  | some vcols => vcols.layers.length

/-- New-API branch of `has_vertex_colors`. -/
def has_vertex_colorsNew (m : Mesh) : Bool :=
  decide (0 < get_vcol_countNew m)

/-- Legacy branch of `has_vertex_colors`. -/
def has_vertex_colorsLegacy (m : Mesh) : Bool :=
  decide (0 < get_vcol_countLegacy m)

/-- New-API branch of `get_or_create_vcol`. -/
def get_or_create_vcolNew (m : Mesh) : Except String (VCol × Mesh) :=
  match get_active_vcolNew m with
  | some vcol => .ok (vcol, m)
  | none =>
      match create_vcolNew m none with
      | .error e => .error e
      | .ok (vcol, m1) =>
          match set_active_vcolNew m1 vcol with
          | .error e => .error e
          | .ok m2 => .ok (vcol, m2)

/-- Legacy branch of `get_or_create_vcol`. -/
def get_or_create_vcolLegacy (legacyDefault : String) (m : Mesh) :
    Except String (VCol × Mesh) :=
  match get_active_vcolLegacy m with
  | some vcol => .ok (vcol, m)
  | none =>
      match create_vcolLegacy legacyDefault m none with
      | .error e => .error e
      | .ok (vcol, m1) =>
          match set_active_vcolLegacy m1 vcol with
          | .error e => .error e
          | .ok m2 => .ok (vcol, m2)

/-- Branch of `iter_vertex_colors` on the new API. -/
def iter_vertex_colorsNew (m : Mesh) : List VCol :=
  match m.color_attributes with
  | none => []
  | some vcols => vcols.layers

/-- Branch of `iter_vertex_colors` on the legacy API. -/
def iter_vertex_colorsLegacy (m : Mesh) : List VCol :=
  match m.vertex_colors with
  | none => []
  | some vcols => vcols.layers

/-- Branch of `set_auto_smooth` on Blender 4.1+ (a no-op). -/
def set_auto_smoothNew (m : Mesh) (_enabled : Bool) : Mesh :=
  m

/-- Branch of `set_auto_smooth` below Blender 4.1. -/
def set_auto_smoothLegacy (m : Mesh) (enabled : Bool) : Mesh :=
  { m with use_auto_smooth := enabled }

/-- Branch of `has_auto_smooth` on Blender 4.1+. -/
def has_auto_smoothNew (_m : Mesh) : Bool :=
  true

/-- Branch of `has_auto_smooth` below Blender 4.1. -/
def has_auto_smoothLegacy (m : Mesh) : Bool :=
  m.use_auto_smooth

/-- New-API branch of `get_bmesh_color_layer`. -/
def get_bmesh_color_layerNew (bm : BMesh) (vcol_name : Option String) : Option BMLayer :=
  if nameTruthy vcol_name then
    let n := vcol_name.getD ""
    if bm.float_color.hasName n then bm.float_color.byName n
    else if bm.color.hasName n then bm.color.byName n
    else none
  else
    match bm.float_color.active with
    | some layer => some layer
    | none => bm.color.active

/-- Legacy branch of `get_bmesh_color_layer`. -/
def get_bmesh_color_layerLegacy (bm : BMesh) (vcol_name : Option String) : Option BMLayer :=
  if nameTruthy vcol_name && bm.color.hasName (vcol_name.getD "") then
    bm.color.byName (vcol_name.getD "")
  else bm.color.active

/-!
Helper lemmas.
-/

/-- No operation writes the module globals: `runOp` returns the flag record
it was given (no function body of the module contains a `global` statement). -/
theorem runOp_fst (fl : ModuleFlags) (d : String) (m : Mesh) (op : Op) :
    (runOp fl d m op).1 = fl := by
  cases op <;> simp only [runOp] <;> split <;> rfl

/-- The module globals are invariant along any trace of operations. -/
theorem runTrace_fst (d : String) :
    ∀ (ops : List Op) (fl : ModuleFlags) (m : Mesh),
      (runTrace fl d m ops).1 = fl := by
  intro ops
  induction ops with
  | nil => intro fl m; rfl
  | cons op ops ih =>
      intro fl m
      simp only [runTrace, runOp_fst]
      exact ih fl _

/-- Name-directed lookup depends only on the logical view of the layer
list. -/
theorem find?_name_view (n : String) :
    ∀ l1 l2 : List VCol, l1.map VCol.view = l2.map VCol.view →
      (l1.find? fun l => l.name == n).map VCol.view =
        (l2.find? fun l => l.name == n).map VCol.view := by
  intro l1
  induction l1 with
  | nil =>
      intro l2 h
      have h2 : l2 = [] := List.map_eq_nil_iff.mp h.symm
      subst h2; rfl
  | cons a t ih =>
      intro l2 h
      cases l2 with
      | nil => simp at h
      | cons b t2 =>
          simp only [List.map_cons, List.cons.injEq] at h
          obtain ⟨hab, ht⟩ := h
          have hname : a.name = b.name := congrArg Prod.fst hab
          by_cases hn : a.name = n
          · rw [List.find?_cons_of_pos _ (by simp [hn]),
              List.find?_cons_of_pos _ (by simp [← hname, hn])]
            simp [hab]
          · rw [List.find?_cons_of_neg _ (by simp [hn]),
              List.find?_cons_of_neg _ (by simp [← hname, hn])]
            exact ih t2 ht

/-- Name membership depends only on the logical view of the layer list. -/
theorem any_name_view (n : String) :
    ∀ l1 l2 : List VCol, l1.map VCol.view = l2.map VCol.view →
      (l1.any fun l => l.name == n) = (l2.any fun l => l.name == n) := by
  intro l1
  induction l1 with
  | nil =>
      intro l2 h
      have h2 : l2 = [] := List.map_eq_nil_iff.mp h.symm
      subst h2; rfl
  | cons a t ih =>
      intro l2 h
      cases l2 with
      | nil => simp at h
      | cons b t2 =>
          simp only [List.map_cons, List.cons.injEq] at h
          obtain ⟨hab, ht⟩ := h
          have hname : a.name = b.name := congrArg Prod.fst hab
          simp only [List.any_cons, hname, ih t2 ht]

/-- Erasing layers that sit at the same position in two view-equal layer
lists preserves view equality (`erase` removes the first structurally equal
element, so the positions are pinned by `indexOf`). -/
theorem erase_view (v1 v2 : VCol) :
    ∀ l1 l2 : List VCol, l1.map VCol.view = l2.map VCol.view →
      l1.indexOf v1 = l2.indexOf v2 →
      (l1.erase v1).map VCol.view = (l2.erase v2).map VCol.view := by
  intro l1
  induction l1 with
  | nil =>
      intro l2 h hi
      have h2 : l2 = [] := List.map_eq_nil_iff.mp h.symm
      subst h2; rfl
  | cons a t ih =>
      intro l2 h hi
      cases l2 with
      | nil => simp at h
      | cons b t2 =>
          simp only [List.map_cons, List.cons.injEq] at h
          obtain ⟨hab, ht⟩ := h
          by_cases hav : a = v1
          · by_cases hbv : b = v2
            · subst hav; subst hbv
              rw [List.erase_cons_head, List.erase_cons_head]
              exact ht
            · exfalso
              rw [List.indexOf_cons_eq t hav, List.indexOf_cons_ne t2 hbv] at hi
              exact Nat.succ_ne_zero _ hi.symm
          · by_cases hbv : b = v2
            · exfalso
              rw [List.indexOf_cons_ne t hav, List.indexOf_cons_eq t2 hbv] at hi
              exact Nat.succ_ne_zero _ hi
            · rw [List.indexOf_cons_ne t hav, List.indexOf_cons_ne t2 hbv] at hi
              rw [List.erase_cons_tail (by simp [hav]),
                List.erase_cons_tail (by simp [hbv])]
              simp [hab, ih t2 ht (Nat.succ_injective hi)]

/-- On a host where the version flag is set, every flag-reading function
executes exactly its new-API branch. -/
theorem use_flag_new_branches (fl : ModuleFlags) (d : String)
    (h : fl.USE_COLOR_ATTRIBUTES = true) :
    (∀ m, get_vertex_colors fl m = get_vertex_colorsNew m)
    ∧ (∀ m, get_active_vcol fl m = get_active_vcolNew m)
    ∧ (∀ m v, set_active_vcol fl m v = set_active_vcolNew m v)
    ∧ (∀ m nm, create_vcol fl d m nm = create_vcolNew m nm)
    ∧ (∀ m v, remove_vcol fl m v = remove_vcolNew m v)
    ∧ (∀ m n, vcol_exists fl m n = vcol_existsNew m n)
    ∧ (∀ m n, get_vcol_by_name fl m n = get_vcol_by_nameNew m n)
    ∧ (∀ m, get_vcol_count fl m = get_vcol_countNew m)
    ∧ (∀ m, has_vertex_colors fl m = has_vertex_colorsNew m)
    ∧ (∀ m, get_or_create_vcol fl d m = get_or_create_vcolNew m)
    ∧ (∀ m, iter_vertex_colors fl m = iter_vertex_colorsNew m)
    ∧ (∀ bm nm, get_bmesh_color_layer fl bm nm = get_bmesh_color_layerNew bm nm) := by
  have e1 : ∀ m, get_active_vcol fl m = get_active_vcolNew m := by
    intro m; simp [get_active_vcol, get_active_vcolNew, h]
  have e2 : ∀ m nm, create_vcol fl d m nm = create_vcolNew m nm := by
    intro m nm; simp [create_vcol, create_vcolNew, h]
  have e3 : ∀ m v, set_active_vcol fl m v = set_active_vcolNew m v := by
    intro m v; simp [set_active_vcol, set_active_vcolNew, h]
  refine ⟨?_, e1, e3, e2, ?_, ?_, ?_, ?_, ?_, ?_, ?_, ?_⟩
  · intro m; simp [get_vertex_colors, get_vertex_colorsNew, h]
  · intro m v; simp [remove_vcol, remove_vcolNew, h]
  · intro m n; simp [vcol_exists, get_vertex_colors, vcol_existsNew, h]
  · intro m n; simp [get_vcol_by_name, get_vertex_colors, get_vcol_by_nameNew, h]
  · intro m; simp [get_vcol_count, get_vertex_colors, get_vcol_countNew, h]
  · intro m
    simp [has_vertex_colors, get_vcol_count, get_vertex_colors,
      has_vertex_colorsNew, get_vcol_countNew, h]
  · intro m; simp only [get_or_create_vcol, get_or_create_vcolNew, e1, e2, e3]
  · intro m; simp [iter_vertex_colors, get_vertex_colors, iter_vertex_colorsNew, h]
  · intro bm nm; simp [get_bmesh_color_layer, get_bmesh_color_layerNew, h]

/-- On a host where the version flag is clear, every flag-reading function
executes exactly its legacy branch. -/
theorem use_flag_legacy_branches (fl : ModuleFlags) (d : String)
    (h : fl.USE_COLOR_ATTRIBUTES = false) :
    (∀ m, get_vertex_colors fl m = get_vertex_colorsLegacy m)
    ∧ (∀ m, get_active_vcol fl m = get_active_vcolLegacy m)
    ∧ (∀ m v, set_active_vcol fl m v = set_active_vcolLegacy m v)
    ∧ (∀ m nm, create_vcol fl d m nm = create_vcolLegacy d m nm)
    ∧ (∀ m v, remove_vcol fl m v = remove_vcolLegacy m v)
    ∧ (∀ m n, vcol_exists fl m n = vcol_existsLegacy m n)
    ∧ (∀ m n, get_vcol_by_name fl m n = get_vcol_by_nameLegacy m n)
    ∧ (∀ m, get_vcol_count fl m = get_vcol_countLegacy m)
    ∧ (∀ m, has_vertex_colors fl m = has_vertex_colorsLegacy m)
    ∧ (∀ m, get_or_create_vcol fl d m = get_or_create_vcolLegacy d m)
    ∧ (∀ m, iter_vertex_colors fl m = iter_vertex_colorsLegacy m)
    ∧ (∀ bm nm, get_bmesh_color_layer fl bm nm = get_bmesh_color_layerLegacy bm nm) := by
  have e1 : ∀ m, get_active_vcol fl m = get_active_vcolLegacy m := by
    intro m; simp [get_active_vcol, get_active_vcolLegacy, h]
  have e2 : ∀ m nm, create_vcol fl d m nm = create_vcolLegacy d m nm := by
    intro m nm; simp [create_vcol, create_vcolLegacy, h]
  have e3 : ∀ m v, set_active_vcol fl m v = set_active_vcolLegacy m v := by
    intro m v; simp [set_active_vcol, set_active_vcolLegacy, h]
  refine ⟨?_, e1, e3, e2, ?_, ?_, ?_, ?_, ?_, ?_, ?_, ?_⟩
  · intro m; simp [get_vertex_colors, get_vertex_colorsLegacy, h]
  · intro m v; simp [remove_vcol, remove_vcolLegacy, h]
  · intro m n; simp [vcol_exists, get_vertex_colors, vcol_existsLegacy, h]
  · intro m n; simp [get_vcol_by_name, get_vertex_colors, get_vcol_by_nameLegacy, h]
  · intro m; simp [get_vcol_count, get_vertex_colors, get_vcol_countLegacy, h]
  · intro m
    simp [has_vertex_colors, get_vcol_count, get_vertex_colors,
      has_vertex_colorsLegacy, get_vcol_countLegacy, h]
  · intro m; simp only [get_or_create_vcol, get_or_create_vcolLegacy, e1, e2, e3]
  · intro m; simp [iter_vertex_colors, get_vertex_colors, iter_vertex_colorsLegacy, h]
  · intro bm nm; simp [get_bmesh_color_layer, get_bmesh_color_layerLegacy, h]

/-!
Claim theorems.
-/

/-- C1: for every host version tuple `v`, `USE_COLOR_ATTRIBUTES` is true iff
`v >= (3, 2, 0)` in the host's lexicographic tuple order (spelled out
arithmetically; the patch component never matters against a `0` threshold),
and `get_vertex_colors` returns the mesh's `color_attributes` collection when
the flag is true and its `vertex_colors` collection when it is false. -/
theorem C1_version_flag_and_get_vertex_colors (v : Ver) :
    ((moduleInit v).USE_COLOR_ATTRIBUTES = true ↔
      3 < v.1 ∨ (v.1 = 3 ∧ 2 ≤ v.2.1)) ∧
    ∀ m : Mesh,
      get_vertex_colors (moduleInit v) m =
        if (moduleInit v).USE_COLOR_ATTRIBUTES then m.color_attributes
        else m.vertex_colors := by
  refine ⟨?_, fun m => rfl⟩
  simp only [moduleInit, verGE, Bool.or_eq_true, Bool.and_eq_true,
    decide_eq_true_eq, beq_iff_eq]
  omega

/-- C4: the module-level state is exactly the flag record set up once by
`moduleInit` from the host's reported version; no operation of the module
modifies it along any call trace, and each flag is the version comparison
the source assigns it (`USE_COLOR_ATTRIBUTES` being an alias of
`BLENDER_3_2`), so every call dispatches on the same branch for the lifetime
of the process. -/
theorem C4_module_state_constant (v : Ver) (d : String) (m : Mesh)
    (ops : List Op) :
    (runTrace (moduleInit v) d m ops).1 = moduleInit v
    ∧ (moduleInit v).BLENDER_VERSION = v
    ∧ (moduleInit v).BLENDER_3_2 = verGE v (3, 2, 0)
    ∧ (moduleInit v).BLENDER_4_0 = verGE v (4, 0, 0)
    ∧ (moduleInit v).BLENDER_4_1 = verGE v (4, 1, 0)
    ∧ (moduleInit v).BLENDER_5_0 = verGE v (5, 0, 0)
    ∧ (moduleInit v).USE_COLOR_ATTRIBUTES = (moduleInit v).BLENDER_3_2 :=
  ⟨runTrace_fst d ops (moduleInit v) m, rfl, rfl, rfl, rfl, rfl, rfl⟩

/-- C7: `get_shader_builtin` passes the bare name to the host's
`from_builtin` when the version is at least `(4, 0, 0)` and the
`'2D_'`-prefixed name otherwise, and returns the host's answer unchanged:
on both branches the request carries the same base name, only the
version-appropriate prefix differs. -/
theorem C7_shader_request (fl : ModuleFlags) (α : Type)
    (from_builtin : String → α) (name : String) :
    get_shader_builtin fl from_builtin name =
      from_builtin (if fl.BLENDER_4_0 then name else "2D_" ++ name) := by
  cases h : fl.BLENDER_4_0 <;> simp [get_shader_builtin, h]

/-- C9: on host version at least `(4, 1, 0)`, `set_auto_smooth` leaves the
mesh unchanged for every mesh and argument and `has_auto_smooth` returns
`true` for every mesh (in particular after `set_auto_smooth(mesh, False)`);
below `(4, 1, 0)` the pair writes and reads the mesh's `use_auto_smooth`
field. -/
theorem C9_auto_smooth (v : Ver) (m : Mesh) (e : Bool) :
    set_auto_smooth (moduleInit v) m e =
      (if verGE v (4, 1, 0) then m else { m with use_auto_smooth := e })
    ∧ has_auto_smooth (moduleInit v) m =
      (if verGE v (4, 1, 0) then true else m.use_auto_smooth)
    ∧ has_auto_smooth (moduleInit v)
        (set_auto_smooth (moduleInit v) m false) =
      (if verGE v (4, 1, 0) then true else false) := by
  cases h : verGE v (4, 1, 0) <;>
    simp [set_auto_smooth, has_auto_smooth, moduleInit, h]

/-- C5 counterexample: `get_loop_color` does not complete normally for every
layer and loop index; on a layer with empty color data and loop index `0`,
`vcol.data[loop_index]` raises `IndexError`. -/
theorem C5_counterexample_loop_index :
    get_loop_color { name := "Col", attrType := none, domain := none, data := [] } 0 =
      Except.error "IndexError" := rfl

/-- C5 (amended): `get_loop_color` and `set_loop_color` complete normally
exactly when the loop index is within the layer's color data; out of range
they raise (`IndexError`) rather than return the absent-value marker.  The
layer-lookup operations signal a missing item by the marker alone. -/
theorem C5_amended_loop_bounds (vcol : VCol) (i : Nat) (c : Color) :
    exOk (get_loop_color vcol i) = decide (i < vcol.data.length)
    ∧ exOk (set_loop_color vcol i c) = decide (i < vcol.data.length) := by
  constructor
  · by_cases hlt : i < vcol.data.length
    · rw [get_loop_color, List.get?_eq_get hlt]
      simp [exOk, hlt]
    · rw [get_loop_color, List.get?_eq_none.mpr (Nat.le_of_not_lt hlt)]
      simp [exOk, hlt]
  · by_cases hlt : i < vcol.data.length <;> simp [set_loop_color, exOk, hlt]

/-- C3: `get_vcol_by_name` returns the absent-value marker iff the mesh's
color-layer collection is absent or holds no layer of the requested name;
otherwise the result is a layer of the collection stored under that name.
`get_active_vcol` returns the marker whenever the mesh has no color
layers. -/
theorem C3_lookup_absent_marker (fl : ModuleFlags) (m : Mesh) (n : String) :
    (get_vcol_by_name fl m n = none ↔
      get_vertex_colors fl m = none ∨
        ∃ c, get_vertex_colors fl m = some c ∧ c.hasName n = false)
    ∧ (∀ c l, get_vertex_colors fl m = some c →
        get_vcol_by_name fl m n = some l → l ∈ c.layers ∧ l.name = n)
    ∧ (get_vcol_count fl m = 0 → get_active_vcol fl m = none) := by
  refine ⟨?_, ?_, ?_⟩
  · rw [get_vcol_by_name]
    cases hg : get_vertex_colors fl m with
    | none => simp
    | some c =>
        cases hn : c.hasName n with
        | false => simp [hn]
        | true =>
            simp only [hn, if_true, Option.some.injEq, reduceCtorEq, false_or]
            constructor
            · intro hb
              obtain ⟨l, hl, hp⟩ := List.any_eq_true.mp hn
              rw [Collection.byName] at hb
              have hs : (c.layers.find? fun x => x.name == n).isSome :=
                List.find?_isSome.mpr ⟨l, hl, hp⟩
              rw [hb] at hs
              simp at hs
            · rintro ⟨c2, hc2, hn2⟩
              cases hc2
              rw [hn] at hn2
              simp at hn2
  · intro c l hg hl
    simp only [get_vcol_by_name, hg] at hl
    cases hn : c.hasName n with
    | false => simp [hn] at hl
    | true =>
        simp only [hn, if_true, Collection.byName] at hl
        exact ⟨List.mem_of_find?_eq_some hl,
          by simpa using List.find?_some hl⟩
  · intro h0
    cases hU : fl.USE_COLOR_ATTRIBUTES with
    | true =>
        simp only [get_vcol_count, get_vertex_colors, hU, if_true] at h0
        simp only [get_active_vcol, hU, if_true]
        cases hca : m.color_attributes with
        | none => rfl
        | some c =>
            rw [hca] at h0
            simp only [hca]
            simp at h0
            simp [h0]
    | false =>
        simp only [get_vcol_count, get_vertex_colors, hU] at h0
        simp only [get_active_vcol, hU]
        simp only [Bool.false_eq_true, if_false] at h0 ⊢
        cases hvc : m.vertex_colors with
        | none => rfl
        | some c =>
            rw [hvc] at h0
            simp only [hvc]
            simp at h0
            simp [h0]

/-- C3 witness: on a legacy-version host with one layer named `"A"`, the
lookup finds that layer. -/
theorem C3_witness :
    (⟨"A", none, none, []⟩ : VCol) ∈ ([⟨"A", none, none, []⟩] : List VCol) ∧
      (⟨"A", none, none, []⟩ : VCol).name = "A" :=
  (C3_lookup_absent_marker (moduleInit (3, 0, 0))
      ⟨none, some ⟨[⟨"A", none, none, []⟩], none⟩, false⟩ "A").2.1
    ⟨[⟨"A", none, none, []⟩], none⟩ ⟨"A", none, none, []⟩ rfl rfl

/-- C8: under the new color-attribute API (version at least `(3, 2, 0)`),
`create_vcol` creates the attribute with type `'BYTE_COLOR'` and domain
`'CORNER'` for every mesh (whose attribute collection the host provides) and
every name argument, appends it to the collection, and names it `"Color"`
when the name argument is `None` or empty. -/
theorem C8_create_byte_color_corner (v : Ver) (d : String) (m : Mesh)
    (c : Collection) (name : Option String)
    (hv : verGE v (3, 2, 0) = true) (hm : m.color_attributes = some c) :
    ∃ l m1, create_vcol (moduleInit v) d m name = .ok (l, m1)
      ∧ l.attrType = some "BYTE_COLOR"
      ∧ l.domain = some "CORNER"
      ∧ l.data = []
      ∧ (nameTruthy name = false → l.name = "Color")
      ∧ (∀ n : String, name = some n → n ≠ "" → l.name = n)
      ∧ m1.color_attributes = some { c with layers := c.layers ++ [l] }
      ∧ m1.vertex_colors = m.vertex_colors
      ∧ m1.use_auto_smooth = m.use_auto_smooth := by
  have hU : (moduleInit v).USE_COLOR_ATTRIBUTES = true := hv
  refine ⟨⟨if nameTruthy name then name.getD "" else "Color",
      some "BYTE_COLOR", some "CORNER", []⟩,
    { m with color_attributes := some { c with layers := c.layers ++
        [⟨if nameTruthy name then name.getD "" else "Color",
          some "BYTE_COLOR", some "CORNER", []⟩] } },
    ?_, rfl, rfl, rfl, ?_, ?_, rfl, rfl, rfl⟩
  · simp [create_vcol, hU, hm]
  · intro hfalse; simp [hfalse]
  · intro n hn hne; subst hn; simp [nameTruthy, hne]

/-- C8 witness: at version `(3, 2, 0)` on a mesh with an empty attribute
collection and no name argument, the created layer is the `'BYTE_COLOR'` /
`'CORNER'` attribute named `"Color"`. -/
theorem C8_witness :
    ∃ l m1,
      create_vcol (moduleInit (3, 2, 0)) "Col" ⟨some ⟨[], none⟩, none, false⟩ none =
        .ok (l, m1)
      ∧ l.attrType = some "BYTE_COLOR"
      ∧ l.domain = some "CORNER"
      ∧ l.data = []
      ∧ (nameTruthy none = false → l.name = "Color")
      ∧ (∀ n : String, none = some n → n ≠ "" → l.name = n)
      ∧ m1.color_attributes =
          some { layers := ([] : List VCol) ++ [l], active := none }
      ∧ m1.vertex_colors = (⟨some ⟨[], none⟩, none, false⟩ : Mesh).vertex_colors
      ∧ m1.use_auto_smooth = (⟨some ⟨[], none⟩, none, false⟩ : Mesh).use_auto_smooth :=
  C8_create_byte_color_corner (3, 2, 0) "Col" ⟨some ⟨[], none⟩, none, false⟩
    ⟨[], none⟩ none (by decide) rfl

/-- C10: whenever the host provides the version-appropriate layer collection,
`get_or_create_vcol` raises nothing and never returns the absent-value
marker: if the mesh has an active color layer it returns it with the mesh
unchanged, otherwise it appends exactly one new layer to the collection,
makes it the active layer, and returns it. -/
theorem C10_get_or_create (fl : ModuleFlags) (d : String) (m : Mesh)
    (c : Collection)
    (hc : (if fl.USE_COLOR_ATTRIBUTES then m.color_attributes
           else m.vertex_colors) = some c) :
    exOk (get_or_create_vcol fl d m) = true
    ∧ (∀ l, get_active_vcol fl m = some l →
        get_or_create_vcol fl d m = .ok (l, m))
    ∧ (get_active_vcol fl m = none →
        ∃ l, get_or_create_vcol fl d m =
          .ok (l, if fl.USE_COLOR_ATTRIBUTES then
                { m with color_attributes := some ⟨c.layers ++ [l], some l⟩ }
              else
                { m with vertex_colors := some ⟨c.layers ++ [l], some l⟩ })) := by
  have h2 : ∀ l, get_active_vcol fl m = some l →
      get_or_create_vcol fl d m = .ok (l, m) := by
    intro l hl
    rw [get_or_create_vcol, hl]
  have h3 : get_active_vcol fl m = none →
      ∃ l, get_or_create_vcol fl d m =
        .ok (l, if fl.USE_COLOR_ATTRIBUTES then
              { m with color_attributes := some ⟨c.layers ++ [l], some l⟩ }
            else
              { m with vertex_colors := some ⟨c.layers ++ [l], some l⟩ }) := by
    intro h0
    cases hU : fl.USE_COLOR_ATTRIBUTES with
    | true =>
        rw [hU] at hc
        simp at hc
        refine ⟨⟨"Color", some "BYTE_COLOR", some "CORNER", []⟩, ?_⟩
        rw [get_or_create_vcol, h0]
        simp [create_vcol, set_active_vcol, hU, hc, nameTruthy]
    | false =>
        rw [hU] at hc
        simp at hc
        refine ⟨⟨d, none, none, []⟩, ?_⟩
        rw [get_or_create_vcol, h0]
        simp [create_vcol, set_active_vcol, hU, hc, nameTruthy]
  refine ⟨?_, h2, h3⟩
  cases ha : get_active_vcol fl m with
  | some l => rw [h2 l ha]; rfl
  | none =>
      obtain ⟨l, hl⟩ := h3 ha
      rw [hl]; rfl

/-- C2 counterexample: on corresponding host states (flag true at
`(3, 2, 0)`, flag false at `(3, 0, 0)`, meshes carrying the same logical
layers), the two paths do not always produce the same logical result.
Unnamed `create_vcol` and `get_or_create_vcol` with no active layer name the
new layer `"Color"` on the new path but the legacy host's default (here
`"Col"`, the name Blender's `vertex_colors.new()` assigns) on the legacy
path; and `get_bmesh_color_layer` queried with the absent name `"X"` returns
the marker on the new path but the active layer on the legacy path. -/
theorem C2_counterexample_corresponding_hosts :
    ((moduleInit (3, 2, 0)).USE_COLOR_ATTRIBUTES = true
      ∧ (moduleInit (3, 0, 0)).USE_COLOR_ATTRIBUTES = false)
    ∧ newView ⟨some ⟨[], none⟩, none, false⟩ =
        legacyView ⟨none, some ⟨[], none⟩, false⟩
    ∧ (create_vcol (moduleInit (3, 2, 0)) "Col"
        ⟨some ⟨[], none⟩, none, false⟩ none).toOption.map (fun p => p.1.view) =
        some ("Color", [])
    ∧ (create_vcol (moduleInit (3, 0, 0)) "Col"
        ⟨none, some ⟨[], none⟩, false⟩ none).toOption.map (fun p => p.1.view) =
        some ("Col", [])
    ∧ (get_or_create_vcol (moduleInit (3, 2, 0)) "Col"
        ⟨some ⟨[], none⟩, none, false⟩).toOption.map (fun p => p.1.view) =
        some ("Color", [])
    ∧ (get_or_create_vcol (moduleInit (3, 0, 0)) "Col"
        ⟨none, some ⟨[], none⟩, false⟩).toOption.map (fun p => p.1.view) =
        some ("Col", [])
    ∧ ("Color", ([] : List Color)) ≠ ("Col", ([] : List Color))
    ∧ get_bmesh_color_layer (moduleInit (3, 2, 0))
        ⟨⟨[], none⟩, ⟨[⟨"A"⟩], some ⟨"A"⟩⟩⟩ (some "X") = none
    ∧ get_bmesh_color_layer (moduleInit (3, 0, 0))
        ⟨⟨[], none⟩, ⟨[⟨"A"⟩], some ⟨"A"⟩⟩⟩ (some "X") = some ⟨"A"⟩
    ∧ (none : Option BMLayer) ≠ some ⟨"A"⟩ :=
  ⟨⟨rfl, rfl⟩, rfl, rfl, rfl, rfl, rfl, by decide, rfl, rfl, by decide⟩

/-- C2 (amended): every public operation takes the same arguments regardless
of host version, and exactly one of its two implementation paths executes,
selected solely by the fixed version flag (first two conjunctions: on a
flag-true host every operation equals its new-API branch, on a flag-false
host its legacy branch).  For corresponding host states the two paths
produce the same logical result, except where the hosts themselves differ:
a layer created without a caller-supplied name carries the new path's
`"Color"` versus the legacy host's default, so unnamed `create_vcol` and
`get_or_create_vcol` on a mesh without an active layer agree exactly when
the legacy default is `"Color"`; and `get_bmesh_color_layer` agrees when no
name is requested or the requested name is present (a missing name yields
the marker on the new path but the active layer on the legacy path).
Removal agrees for layers occupying the same position of the two
collections.  The shader fetch and the smoothing toggle dispatch likewise on
their own flags; their per-branch behavior is stated separately (C7, C9). -/
theorem C2_amended_paths_agree (fl1 fl2 : ModuleFlags) (d1 d2 : String)
    (m1 m2 : Mesh)
    (h1 : fl1.USE_COLOR_ATTRIBUTES = true)
    (h2 : fl2.USE_COLOR_ATTRIBUTES = false)
    (hcorr : newView m1 = legacyView m2) :
    ((∀ m, get_vertex_colors fl1 m = get_vertex_colorsNew m)
      ∧ (∀ m, get_active_vcol fl1 m = get_active_vcolNew m)
      ∧ (∀ m v, set_active_vcol fl1 m v = set_active_vcolNew m v)
      ∧ (∀ m nm, create_vcol fl1 d1 m nm = create_vcolNew m nm)
      ∧ (∀ m v, remove_vcol fl1 m v = remove_vcolNew m v)
      ∧ (∀ m n, vcol_exists fl1 m n = vcol_existsNew m n)
      ∧ (∀ m n, get_vcol_by_name fl1 m n = get_vcol_by_nameNew m n)
      ∧ (∀ m, get_vcol_count fl1 m = get_vcol_countNew m)
      ∧ (∀ m, has_vertex_colors fl1 m = has_vertex_colorsNew m)
      ∧ (∀ m, get_or_create_vcol fl1 d1 m = get_or_create_vcolNew m)
      ∧ (∀ m, iter_vertex_colors fl1 m = iter_vertex_colorsNew m)
      ∧ (∀ bm nm, get_bmesh_color_layer fl1 bm nm = get_bmesh_color_layerNew bm nm))
    ∧ ((∀ m, get_vertex_colors fl2 m = get_vertex_colorsLegacy m)
      ∧ (∀ m, get_active_vcol fl2 m = get_active_vcolLegacy m)
      ∧ (∀ m v, set_active_vcol fl2 m v = set_active_vcolLegacy m v)
      ∧ (∀ m nm, create_vcol fl2 d2 m nm = create_vcolLegacy d2 m nm)
      ∧ (∀ m v, remove_vcol fl2 m v = remove_vcolLegacy m v)
      ∧ (∀ m n, vcol_exists fl2 m n = vcol_existsLegacy m n)
      ∧ (∀ m n, get_vcol_by_name fl2 m n = get_vcol_by_nameLegacy m n)
      ∧ (∀ m, get_vcol_count fl2 m = get_vcol_countLegacy m)
      ∧ (∀ m, has_vertex_colors fl2 m = has_vertex_colorsLegacy m)
      ∧ (∀ m, get_or_create_vcol fl2 d2 m = get_or_create_vcolLegacy d2 m)
      ∧ (∀ m, iter_vertex_colors fl2 m = iter_vertex_colorsLegacy m)
      ∧ (∀ bm nm, get_bmesh_color_layer fl2 bm nm = get_bmesh_color_layerLegacy bm nm))
    ∧ (get_vertex_colors fl1 m1).map Collection.view =
        (get_vertex_colors fl2 m2).map Collection.view
    ∧ (get_active_vcol fl1 m1).map VCol.view =
        (get_active_vcol fl2 m2).map VCol.view
    ∧ (∀ n, vcol_exists fl1 m1 n = vcol_exists fl2 m2 n)
    ∧ (∀ n, (get_vcol_by_name fl1 m1 n).map VCol.view =
        (get_vcol_by_name fl2 m2 n).map VCol.view)
    ∧ get_vcol_count fl1 m1 = get_vcol_count fl2 m2
    ∧ has_vertex_colors fl1 m1 = has_vertex_colors fl2 m2
    ∧ (iter_vertex_colors fl1 m1).map VCol.view =
        (iter_vertex_colors fl2 m2).map VCol.view
    ∧ (∀ v1 v2 : VCol, v1.view = v2.view →
        (set_active_vcol fl1 m1 v1).map newView =
          (set_active_vcol fl2 m2 v2).map legacyView)
    ∧ (∀ v1 v2 : VCol,
        (∀ c1 c2, m1.color_attributes = some c1 → m2.vertex_colors = some c2 →
          c1.layers.indexOf v1 = c2.layers.indexOf v2) →
        (remove_vcol fl1 m1 v1).map newView =
          (remove_vcol fl2 m2 v2).map legacyView)
    ∧ (∀ nm : Option String, (nameTruthy nm = true ∨ d2 = "Color") →
        (create_vcol fl1 d1 m1 nm).map (fun p => (p.1.view, newView p.2)) =
        (create_vcol fl2 d2 m2 nm).map (fun p => (p.1.view, legacyView p.2)))
    ∧ ((get_active_vcol fl1 m1 ≠ none ∨ d2 = "Color") →
        (get_or_create_vcol fl1 d1 m1).map (fun p => (p.1.view, newView p.2)) =
        (get_or_create_vcol fl2 d2 m2).map (fun p => (p.1.view, legacyView p.2)))
    ∧ (∀ (bm1 bm2 : BMesh) (nm : Option String),
        bm1.float_color.layers = [] → bm1.float_color.active = none →
        bm1.color = bm2.color →
        (nameTruthy nm = false ∨ bm2.color.hasName (nm.getD "") = true) →
        get_bmesh_color_layer fl1 bm1 nm = get_bmesh_color_layer fl2 bm2 nm) := by
  have hbml : ∀ (bm1 bm2 : BMesh) (nm : Option String),
      bm1.float_color.layers = [] → bm1.float_color.active = none →
      bm1.color = bm2.color →
      (nameTruthy nm = false ∨ bm2.color.hasName (nm.getD "") = true) →
      get_bmesh_color_layer fl1 bm1 nm = get_bmesh_color_layer fl2 bm2 nm := by
    intro bm1 bm2 nm hf hfa hcc hd
    cases htr : nameTruthy nm with
    | false => simp [get_bmesh_color_layer, h1, h2, htr, hfa, hcc]
    | true =>
        have hd2 : bm2.color.hasName (nm.getD "") = true := by
          rcases hd with hd | hd
          · rw [htr] at hd; exact absurd hd (by simp)
          · exact hd
        have hf1 : bm1.float_color.hasName (nm.getD "") = false := by
          simp [BMLayerColl.hasName, hf]
        simp [get_bmesh_color_layer, h1, h2, htr, hf1, hcc, hd2]
  refine ⟨use_flag_new_branches fl1 d1 h1, use_flag_legacy_branches fl2 d2 h2, ?_⟩
  cases hca : m1.color_attributes with
  | none =>
      cases hvc : m2.vertex_colors with
      | some c2 => simp [newView, legacyView, hca, hvc] at hcorr
      | none =>
          refine ⟨?_, ?_, ?_, ?_, ?_, ?_, ?_, ?_, ?_, ?_, ?_, hbml⟩
          · simp [get_vertex_colors, h1, h2, hca, hvc]
          · simp [get_active_vcol, h1, h2, hca, hvc]
          · intro n; simp [vcol_exists, get_vertex_colors, h1, h2, hca, hvc]
          · intro n; simp [get_vcol_by_name, get_vertex_colors, h1, h2, hca, hvc]
          · simp [get_vcol_count, get_vertex_colors, h1, h2, hca, hvc]
          · simp [has_vertex_colors, get_vcol_count, get_vertex_colors,
              h1, h2, hca, hvc]
          · simp [iter_vertex_colors, get_vertex_colors, h1, h2, hca, hvc]
          · intro v1 v2 hv
            simp [set_active_vcol, h1, h2, hca, hvc, Except.map]
          · intro v1 v2 hidx
            simp [remove_vcol, h1, h2, hca, hvc, Except.map]
          · intro nm hd
            simp [create_vcol, h1, h2, hca, hvc, Except.map]
          · intro hd
            simp [get_or_create_vcol, get_active_vcol, create_vcol,
              h1, h2, hca, hvc, Except.map]
  | some c1 =>
      cases hvc : m2.vertex_colors with
      | none => simp [newView, legacyView, hca, hvc] at hcorr
      | some c2 =>
          have hview : Collection.view c1 = Collection.view c2 := by
            have h := hcorr
            rw [newView, hca, legacyView, hvc] at h
            exact Option.some.inj h
          have hl : c1.layers.map VCol.view = c2.layers.map VCol.view :=
            congrArg Prod.fst hview
          have ha : c1.active.map VCol.view = c2.active.map VCol.view :=
            congrArg Prod.snd hview
          have hlen : c1.layers.length = c2.layers.length := by
            have := congrArg List.length hl
            simpa using this
          have hany : ∀ n, c1.hasName n = c2.hasName n := by
            intro n
            simp only [Collection.hasName]
            exact any_name_view n _ _ hl
          have hcount : get_vcol_count fl1 m1 = get_vcol_count fl2 m2 := by
            simp [get_vcol_count, get_vertex_colors, h1, h2, hca, hvc, hlen]
          have hactive : (get_active_vcol fl1 m1).map VCol.view =
              (get_active_vcol fl2 m2).map VCol.view := by
            simp only [get_active_vcol, h1, h2, hca, hvc, Bool.false_eq_true,
              if_true, if_false]
            rw [hlen]
            by_cases hp : 0 < c2.layers.length <;> simp [hp, ha]
          refine ⟨?_, hactive, ?_, ?_, hcount, ?_, ?_, ?_, ?_, ?_, ?_, hbml⟩
          · simp [get_vertex_colors, h1, h2, hca, hvc, hview]
          · intro n
            simp [vcol_exists, get_vertex_colors, h1, h2, hca, hvc, hany n]
          · intro n
            simp only [get_vcol_by_name, get_vertex_colors, h1, h2,
              Bool.false_eq_true, if_true, if_false, hca, hvc]
            rw [hany n]
            by_cases hp : c2.hasName n = true
            · simp only [hp, if_true, Collection.byName]
              exact find?_name_view n _ _ hl
            · simp [hp]
          · simp [has_vertex_colors, hcount]
          · simp [iter_vertex_colors, get_vertex_colors, h1, h2, hca, hvc, hl]
          · intro v1 v2 hv
            simp [set_active_vcol, h1, h2, hca, hvc, Except.map,
              newView, legacyView, Collection.view, hl, hv]
          · intro v1 v2 hidx
            have hIdx := hidx c1 c2 rfl rfl
            simp [remove_vcol, h1, h2, hca, hvc, Except.map, newView,
              legacyView, Collection.view, ha,
              erase_view v1 v2 c1.layers c2.layers hl hIdx]
          · intro nm hd
            cases htr : nameTruthy nm with
            | true =>
                simp [create_vcol, h1, h2, hca, hvc, htr, Except.map, newView,
                  legacyView, Collection.view, VCol.view, List.map_append,
                  hl, ha]
            | false =>
                have hd2 : d2 = "Color" := by
                  rcases hd with hd | hd
                  · rw [htr] at hd; exact absurd hd (by simp)
                  · exact hd
                subst hd2
                simp [create_vcol, h1, h2, hca, hvc, htr, Except.map, newView,
                  legacyView, Collection.view, VCol.view, List.map_append,
                  hl, ha]
          · intro hd
            cases hact : get_active_vcol fl1 m1 with
            | some v =>
                have hx := hactive
                rw [hact] at hx
                cases hact2 : get_active_vcol fl2 m2 with
                | none => rw [hact2] at hx; simp at hx
                | some v2 =>
                    rw [hact2] at hx
                    have hv : v.view = v2.view := by simpa using hx
                    rw [get_or_create_vcol, hact, get_or_create_vcol, hact2]
                    simp [Except.map, newView, legacyView, hca, hvc,
                      Collection.view, hl, ha, hv]
            | none =>
                have hd2 : d2 = "Color" := by
                  rcases hd with hd | hd
                  · exact absurd hact hd
                  · exact hd
                subst hd2
                have hact2 : get_active_vcol fl2 m2 = none := by
                  have hx := hactive
                  rw [hact] at hx
                  cases hy : get_active_vcol fl2 m2 with
                  | none => rfl
                  | some v2 => rw [hy] at hx; simp at hx
                rw [get_or_create_vcol, hact, get_or_create_vcol, hact2]
                simp [create_vcol, set_active_vcol, h1, h2, hca, hvc,
                  nameTruthy, Except.map, newView, legacyView,
                  Collection.view, VCol.view, List.map_append, hl]

/-- C2 witness: corresponding empty meshes on a `(3, 2, 0)` host and a
`(3, 0, 0)` host report the same layer count. -/
theorem C2_witness :
    get_vcol_count (moduleInit (3, 2, 0)) ⟨some ⟨[], none⟩, none, false⟩ =
      get_vcol_count (moduleInit (3, 0, 0)) ⟨none, some ⟨[], none⟩, false⟩ :=
  (C2_amended_paths_agree (moduleInit (3, 2, 0)) (moduleInit (3, 0, 0))
      "Col" "Col" ⟨some ⟨[], none⟩, none, false⟩ ⟨none, some ⟨[], none⟩, false⟩
      (by decide) (by decide) rfl).2.2.2.2.2.2.1

/-- C10 witness: a mesh whose attribute collection already has an active
layer gets that layer back, mesh unchanged. -/
theorem C10_witness :
    get_or_create_vcol (moduleInit (3, 2, 0)) "Col"
        ⟨some ⟨[⟨"A", none, none, []⟩], some ⟨"A", none, none, []⟩⟩, none, false⟩ =
      .ok (⟨"A", none, none, []⟩,
        ⟨some ⟨[⟨"A", none, none, []⟩], some ⟨"A", none, none, []⟩⟩, none, false⟩) :=
  (C10_get_or_create (moduleInit (3, 2, 0)) "Col"
      ⟨some ⟨[⟨"A", none, none, []⟩], some ⟨"A", none, none, []⟩⟩, none, false⟩
      ⟨[⟨"A", none, none, []⟩], some ⟨"A", none, none, []⟩⟩ rfl).2.1
    ⟨"A", none, none, []⟩ rfl

/-- C6: every function of the module is a one-or-two-branch dispatch on a
precomputed version flag: each factors as an `if` on its flag between two
branch functions (`...New` / `...Legacy`) that do not read the version at
all and only call into host objects.  The data-access helpers
`get_vcol_data`, `get_loop_color` and `set_loop_color` read no flag, which
their signatures show.  The composites (`vcol_exists`, `get_vcol_by_name`,
`get_vcol_count`, `has_vertex_colors`, `get_or_create_vcol`,
`iter_vertex_colors`) pass host objects between the module's functions and
nothing else, so they too factor into a single flag dispatch. -/
theorem C6_two_branch_dispatch (fl : ModuleFlags) (d : String) :
    (∀ (α : Type) (f : String → α) (n : String),
      get_shader_builtin fl f n =
        if fl.BLENDER_4_0 then get_shader_builtinNew f n
        else get_shader_builtinLegacy f n)
    ∧ (∀ m, get_vertex_colors fl m =
        if fl.USE_COLOR_ATTRIBUTES then get_vertex_colorsNew m
        else get_vertex_colorsLegacy m)
    ∧ (∀ m, get_active_vcol fl m =
        if fl.USE_COLOR_ATTRIBUTES then get_active_vcolNew m
        else get_active_vcolLegacy m)
    ∧ (∀ m v, set_active_vcol fl m v =
        if fl.USE_COLOR_ATTRIBUTES then set_active_vcolNew m v
        else set_active_vcolLegacy m v)
    ∧ (∀ m nm, create_vcol fl d m nm =
        if fl.USE_COLOR_ATTRIBUTES then create_vcolNew m nm
        else create_vcolLegacy d m nm)
    ∧ (∀ m v, remove_vcol fl m v =
        if fl.USE_COLOR_ATTRIBUTES then remove_vcolNew m v
        else remove_vcolLegacy m v)
    ∧ (∀ m n, vcol_exists fl m n =
        if fl.USE_COLOR_ATTRIBUTES then vcol_existsNew m n
        else vcol_existsLegacy m n)
    ∧ (∀ m n, get_vcol_by_name fl m n =
        if fl.USE_COLOR_ATTRIBUTES then get_vcol_by_nameNew m n
        else get_vcol_by_nameLegacy m n)
    ∧ (∀ m, get_vcol_count fl m =
        if fl.USE_COLOR_ATTRIBUTES then get_vcol_countNew m
        else get_vcol_countLegacy m)
    ∧ (∀ m, has_vertex_colors fl m =
        if fl.USE_COLOR_ATTRIBUTES then has_vertex_colorsNew m
        else has_vertex_colorsLegacy m)
    ∧ (∀ m, get_or_create_vcol fl d m =
        if fl.USE_COLOR_ATTRIBUTES then get_or_create_vcolNew m
        else get_or_create_vcolLegacy d m)
    ∧ (∀ m, iter_vertex_colors fl m =
        if fl.USE_COLOR_ATTRIBUTES then iter_vertex_colorsNew m
        else iter_vertex_colorsLegacy m)
    ∧ (∀ m e, set_auto_smooth fl m e =
        if fl.BLENDER_4_1 then set_auto_smoothNew m e
        else set_auto_smoothLegacy m e)
    ∧ (∀ m, has_auto_smooth fl m =
        if fl.BLENDER_4_1 then has_auto_smoothNew m
        else has_auto_smoothLegacy m)
    ∧ (∀ bm nm, get_bmesh_color_layer fl bm nm =
        if fl.USE_COLOR_ATTRIBUTES then get_bmesh_color_layerNew bm nm
        else get_bmesh_color_layerLegacy bm nm) := by
  refine ⟨?_, ?_, ?_, ?_, ?_, ?_, ?_, ?_, ?_, ?_, ?_, ?_, ?_, ?_, ?_⟩
  · intro α f n
    cases h : fl.BLENDER_4_0 <;>
      simp [get_shader_builtin, get_shader_builtinNew, get_shader_builtinLegacy, h]
  · intro m
    cases h : fl.USE_COLOR_ATTRIBUTES <;>
      simp [get_vertex_colors, get_vertex_colorsNew, get_vertex_colorsLegacy, h]
  · intro m
    cases h : fl.USE_COLOR_ATTRIBUTES <;>
      simp [get_active_vcol, get_active_vcolNew, get_active_vcolLegacy, h]
  · intro m v
    cases h : fl.USE_COLOR_ATTRIBUTES <;>
      simp [set_active_vcol, set_active_vcolNew, set_active_vcolLegacy, h]
  · intro m nm
    cases h : fl.USE_COLOR_ATTRIBUTES <;>
      simp [create_vcol, create_vcolNew, create_vcolLegacy, h]
  · intro m v
    cases h : fl.USE_COLOR_ATTRIBUTES <;>
      simp [remove_vcol, remove_vcolNew, remove_vcolLegacy, h]
  · intro m n
    cases h : fl.USE_COLOR_ATTRIBUTES <;>
      simp [vcol_exists, get_vertex_colors, vcol_existsNew, vcol_existsLegacy, h]
  · intro m n
    cases h : fl.USE_COLOR_ATTRIBUTES <;>
      simp [get_vcol_by_name, get_vertex_colors, get_vcol_by_nameNew,
        get_vcol_by_nameLegacy, h]
  · intro m
    cases h : fl.USE_COLOR_ATTRIBUTES <;>
      simp [get_vcol_count, get_vertex_colors, get_vcol_countNew,
        get_vcol_countLegacy, h]
  · intro m
    cases h : fl.USE_COLOR_ATTRIBUTES <;>
      simp [has_vertex_colors, get_vcol_count, get_vertex_colors,
        has_vertex_colorsNew, has_vertex_colorsLegacy,
        get_vcol_countNew, get_vcol_countLegacy, h]
  · intro m
    have e1 : get_active_vcol fl m =
        if fl.USE_COLOR_ATTRIBUTES then get_active_vcolNew m
        else get_active_vcolLegacy m := by
      cases h : fl.USE_COLOR_ATTRIBUTES <;>
        simp [get_active_vcol, get_active_vcolNew, get_active_vcolLegacy, h]
    have e2 : create_vcol fl d m none =
        if fl.USE_COLOR_ATTRIBUTES then create_vcolNew m none
        else create_vcolLegacy d m none := by
      cases h : fl.USE_COLOR_ATTRIBUTES <;>
        simp [create_vcol, create_vcolNew, create_vcolLegacy, h]
    have e3 : ∀ mm vv, set_active_vcol fl mm vv =
        if fl.USE_COLOR_ATTRIBUTES then set_active_vcolNew mm vv
        else set_active_vcolLegacy mm vv := by
      intro mm vv
      cases h : fl.USE_COLOR_ATTRIBUTES <;>
        simp [set_active_vcol, set_active_vcolNew, set_active_vcolLegacy, h]
    cases h : fl.USE_COLOR_ATTRIBUTES <;>
      simp only [h, Bool.false_eq_true, if_true, if_false] at e1 e2 e3 ⊢ <;>
      simp only [get_or_create_vcol, get_or_create_vcolNew,
        get_or_create_vcolLegacy, e1, e2, e3]
  · intro m
    cases h : fl.USE_COLOR_ATTRIBUTES <;>
      simp [iter_vertex_colors, get_vertex_colors, iter_vertex_colorsNew,
        iter_vertex_colorsLegacy, h]
  · intro m e
    cases h : fl.BLENDER_4_1 <;>
      simp [set_auto_smooth, set_auto_smoothNew, set_auto_smoothLegacy, h]
  · intro m
    cases h : fl.BLENDER_4_1 <;>
      simp [has_auto_smooth, has_auto_smoothNew, has_auto_smoothLegacy, h]
  · intro bm nm
    cases h : fl.USE_COLOR_ATTRIBUTES <;>
      simp [get_bmesh_color_layer, get_bmesh_color_layerNew,
        get_bmesh_color_layerLegacy, h]

end VcmCompat
